import Mathlib

/-!
Shallow embedding of the Toptica laser driver (src/hardware/laser/toptica_laser.py)
and its polling logic layer (src/logic/Toptica_laser_logic.py).

Python strings are modelled as `List Char`, byte buffers read from the serial
port as `List Nat` (byte values), Python floats as `ℚ` (all values occurring in
the claims are exactly representable), and Python exceptions as `Except PyErr`.
Outbound serial writes are modelled as the list of byte strings passed to
`self.ser.write`, in order, rendered as Lean `String`s.
-/

namespace Toptica

/-- Python exceptions that the modelled code paths can raise. -/
inductive PyErr where
  | unicodeDecodeError
  | valueError
  deriving DecidableEq

instance {ε α : Type} [DecidableEq ε] [DecidableEq α] : DecidableEq (Except ε α) := fun x y =>
  match x, y with
  | Except.ok a, Except.ok b =>
    if h : a = b then Decidable.isTrue (by rw [h]) else Decidable.isFalse (by simp [h])
  | Except.error a, Except.error b =>
    if h : a = b then Decidable.isTrue (by rw [h]) else Decidable.isFalse (by simp [h])
  | Except.ok _, Except.error _ => Decidable.isFalse (by simp)
  | Except.error _, Except.ok _ => Decidable.isFalse (by simp)

/-- Python `s.find(c, start, stop)` for a single-character needle: the least
index `i` with `start ≤ i < min stop (length s)` and `s[i] = c`, else `-1`. -/
def pyFind (l : List Char) (c : Char) (start stop : Nat) : Int :=
  match ((l.take (min stop l.length)).drop start).findIdx? (fun x => x = c) with
  | some i => ((start + i : Nat) : Int)
  | none => -1

/-- A Python slice endpoint: a negative index counts from the end of the
sequence and the result is clamped into `[0, len]`. -/
def pyIdx (len : Nat) (i : Int) : Nat :=
  (if i < 0 then i + (len : Int) else i).toNat

/-- Python `s[a:b]` for `a : Nat` and a possibly negative endpoint `b`. -/
def pySlice (l : List Char) (a : Nat) (b : Int) : List Char :=
  (l.take (pyIdx l.length b)).drop a

/-- Python `c in s` for a single character. -/
def pyContains (l : List Char) (c : Char) : Bool :=
  l.contains c

/-- Python `sub in s` substring containment. -/
def containsSub (sub l : List Char) : Bool :=
  (List.range (l.length + 1)).any (fun i => (l.drop i).take sub.length = sub)

/-- Result of `_getValue`: either the extracted value substring, or the Python
integer `404` that the source returns when no `=` is present. -/
inductive GotValue where
  | str (s : List Char)
  | notAvailable
  deriving DecidableEq

/-- Model of `TopticaLaser._getValue` (src/hardware/laser/toptica_laser.py lines 589-610):
`start_num = terminalString.find("=", 0, len)`,
`end_num = terminalString.find(" ", start_num+2, len)`,
`val = terminalString[start_num+2:end_num]` when `=` occurs, else `404`. -/
def getValue (terminalString : List Char) : GotValue :=
  if pyContains terminalString '=' then
    let start_num : Nat := (pyFind terminalString '=' 0 terminalString.length).toNat
    let end_num : Int := pyFind terminalString ' ' (start_num + 2) terminalString.length
    GotValue.str (pySlice terminalString (start_num + 2) end_num)
  else
    GotValue.notAvailable

/-- Numeric value of a digit string (most significant digit first). -/
def digitsToNat (ds : List Char) : Nat :=
  ds.foldl (fun a c => 10 * a + (c.toNat - 48)) 0

/-- Exponent part of a Python float literal: optional sign then digits. -/
def parseExp (r : List Char) : Option ℚ :=
  let sgn : Bool × List Char :=
    match r with
    | '-' :: x => (true, x)
    | '+' :: x => (false, x)
    | x => (false, x)
  let ds := sgn.2.takeWhile Char.isDigit
  let rest := sgn.2.dropWhile Char.isDigit
  if ds.isEmpty ∨ ¬ rest.isEmpty then none
  else some ((10 : ℚ) ^ (if sgn.1 then -(digitsToNat ds : Int) else (digitsToNat ds : Int)))

/-- The decimal fragment of Python `float(str)`: optional surrounding spaces,
optional sign, digits with an optional fractional part, optional exponent.
(The inf/nan spellings and underscore separators accepted by `float` play no
role in any claim and are not modelled; on them this parser, like `float` on a
malformed string, reports an error.) -/
def pyFloatOfChars (s : List Char) : Option ℚ :=
  let t0 := ((s.dropWhile (fun c => c = ' ')).reverse.dropWhile (fun c => c = ' ')).reverse
  let sgn : Bool × List Char :=
    match t0 with
    | '-' :: r => (true, r)
    | '+' :: r => (false, r)
    | r => (false, r)
  let ip := sgn.2.takeWhile Char.isDigit
  let t1 := sgn.2.dropWhile Char.isDigit
  let fpRest : List Char × List Char :=
    match t1 with
    | '.' :: r => (r.takeWhile Char.isDigit, r.dropWhile Char.isDigit)
    | r => ([], r)
  let fp := fpRest.1
  if ip.isEmpty ∧ fp.isEmpty then none
  else
    let mant : ℚ := (digitsToNat ip : ℚ) + (digitsToNat fp : ℚ) / (10 : ℚ) ^ fp.length
    let e : Option ℚ :=
      match fpRest.2 with
      | [] => some 1
      | 'e' :: r => parseExp r
      | 'E' :: r => parseExp r
      | _ => none
    match e with
    | none => none
    | some q => some ((if sgn.1 then -mant else mant) * q)

/-- Python `float(x)` applied to the result of `_getValue`: `float(404)` is
`404.0`; a string parses as a decimal number or raises `ValueError`. -/
def pyFloat : GotValue → Except PyErr ℚ
  | GotValue.notAvailable => Except.ok 404
  | GotValue.str s =>
    match pyFloatOfChars s with
    | some q => Except.ok q
    | none => Except.error PyErr.valueError

/-- Whether a byte is a UTF-8 continuation byte (`0x80..0xBF`). -/
def utf8Cont (b : Nat) : Bool :=
  decide (128 ≤ b ∧ b < 192)

/-- Decoding of one multi-byte UTF-8 sequence with lead byte `b ≥ 0x80`:
returns the code point and the remaining bytes, or `none` for a stray
continuation byte, an overlong encoding, a surrogate, an out-of-range code
point or a truncated sequence — exactly the inputs Python strict decoding
rejects. -/
def utf8Multi (b : Nat) (rest : List Nat) : Option (Nat × List Nat) :=
  if b < 194 then
    none
  else if b < 224 then
    match rest with
    | b1 :: rest2 =>
      if utf8Cont b1 then some ((b - 192) * 64 + (b1 - 128), rest2)
      else none
    | [] => none
  else if b < 240 then
    match rest with
    | b1 :: b2 :: rest3 =>
      if utf8Cont b1 ∧ utf8Cont b2 then
        let cp := (b - 224) * 4096 + (b1 - 128) * 64 + (b2 - 128)
        if 2048 ≤ cp ∧ ¬ (55296 ≤ cp ∧ cp < 57344) then some (cp, rest3)
        else none
      else none
    | _ => none
  else if b < 245 then
    match rest with
    | b1 :: b2 :: b3 :: rest4 =>
      if utf8Cont b1 ∧ utf8Cont b2 ∧ utf8Cont b3 then
        let cp := (b - 240) * 262144 + (b1 - 128) * 4096 + (b2 - 128) * 64 + (b3 - 128)
        if 65536 ≤ cp ∧ cp < 1114112 then some (cp, rest4)
        else none
      else none
    | _ => none
  else none

/-- Strict UTF-8 decoding of a byte list to code points, as performed by
Python `str(bytes_value, 'utf-8')`.  Fuel-indexed for structural recursion;
every step consumes at least one byte, so fuel equal to the byte count (as
supplied by `utf8Decode`) never runs out before the input is exhausted. -/
def utf8DecodeF : Nat → List Nat → Option (List Nat)
  | _, [] => some []
  | 0, _ :: _ => none
  | fuel + 1, b :: rest =>
    if b < 128 then
      (utf8DecodeF fuel rest).map (fun ps => b :: ps)
    else
      match utf8Multi b rest with
      | some cpRest => (utf8DecodeF fuel cpRest.2).map (fun ps => cpRest.1 :: ps)
      | none => none

/-- Strict UTF-8 decoding of a byte list to code points. -/
def utf8Decode (bs : List Nat) : Option (List Nat) :=
  utf8DecodeF bs.length bs

/-- Python `str(read_buffer, 'utf-8')`: decoded characters, or a raised
`UnicodeDecodeError` on malformed input. -/
def pyDecodeUtf8 (bs : List Nat) : Except PyErr (List Char) :=
  match utf8Decode bs with
  | some ps => Except.ok (ps.map Char.ofNat)
  | none => Except.error PyErr.unicodeDecodeError

/-- Model of `TopticaLaser._get_terminal_string` (lines 571-587) applied to the bytes
accumulated by its read loop: strict UTF-8 decode, then
`read_buffer[0:len(read_buffer)-5]` (a Python slice, so a negative endpoint
counts from the end).  The `TypeError` for a missing timeout cannot fire
because `on_activate` always sets `self.ser.timeout = 0.03`. -/
def getTerminalString (bs : List Nat) : Except PyErr (List Char) := do
  let r ← pyDecodeUtf8 bs
  pure (pySlice r 0 ((r.length : Int) - 5))

/-- Byte list of an ASCII string, as produced by `bytes(s, encoding='utf8')`
for the ASCII command strings of the driver. -/
def asciiBytes (s : String) : List Nat :=
  s.data.map Char.toNat

/-- The `LaserState` enum of src/interface/Toptica_laser_interface.py. -/
inductive LaserState where
  | OFF
  | ON
  | LOCKED
  | UNKNOWN
  deriving DecidableEq

/-- One facade operation: the byte strings written to the serial transport, in
order, and the returned value (or raised exception). -/
structure HwCall (α : Type) where
  writes : List String
  result : Except PyErr α

/-- Model of `TopticaLaser._communicate` (lines 554-559): writes the message followed by
the CRLF terminator, then reads the terminal string. -/
def communicate (message : String) (bs : List Nat) : HwCall (List Char) :=
  { writes := [message ++ "\r\n"], result := getTerminalString bs }

/-- Model of `TopticaLaser.get_laser_state` (lines 281-293): `_communicate('sta la')`,
then classify the response by the substrings `ON` / `OFF`. -/
def hwGetLaserState (bs : List Nat) : HwCall LaserState :=
  { writes := (communicate "sta la" bs).writes,
    result := do
      let st ← (communicate "sta la" bs).result
      if containsSub "ON".data st then pure LaserState.ON
      else if containsSub "OFF".data st then pure LaserState.OFF
      else pure LaserState.UNKNOWN }

/-- Model of `TopticaLaser.get_power` (lines 132-141): `_communicate('sh pow')`, then
`float(self._getValue(ret)) / 1e3`. -/
def hwGetPower (bs : List Nat) : HwCall ℚ :=
  { writes := (communicate "sh pow" bs).writes,
    result := do
      let ret ← (communicate "sh pow" bs).result
      let v ← pyFloat (getValue ret)
      pure (v / 1000) }

/-- Model of `TopticaLaser.get_power_setpoint` (lines 143-153): writes `b'sh pow\r\n'`
directly, then `float(self._getValue(self._get_terminal_string())) * 1e3`. -/
def hwGetPowerSetpoint (bs : List Nat) : HwCall ℚ :=
  { writes := ["sh pow\r\n"],
    result := do
      let ret ← getTerminalString bs
      let v ← pyFloat (getValue ret)
      pure (v * 1000) }

/-- The dict `{"Base Plate": temp_sys, "Diode": temp_ld}` returned by
`get_temperatures`; it always has exactly these two keys. -/
structure TempDict where
  basePlate : ℚ
  diode : ℚ
  deriving DecidableEq

/-- Model of `TopticaLaser.get_temperatures` (lines 254-265): two direct writes, each
followed by a read and `float(self._getValue(...))`. -/
def hwGetTemperatures (bsSys bsLd : List Nat) : HwCall TempDict :=
  { writes := ["sh temp sys\r\n", "sh temp\r\n"],
    result := do
      let retSys ← getTerminalString bsSys
      let tempSys ← pyFloat (getValue retSys)
      let retLd ← getTerminalString bsLd
      let tempLd ← pyFloat (getValue retLd)
      pure { basePlate := tempSys, diode := tempLd } }

/-- Model of `TopticaLaser.get_autopulseStatus` (lines 345-358): `_communicate('sta puls')`. -/
def hwGetAutopulseStatus (bs : List Nat) : HwCall (List Char) :=
  communicate "sta puls" bs

/-- Model of `TopticaLaser.get_fineStatus` (lines 529-533): `_communicate('sta fine')`. -/
def hwGetFineStatus (bs : List Nat) : HwCall (List Char) :=
  communicate "sta fine" bs

/-- Model of `TopticaLaser.on` (lines 310-316): `_communicate('la on')`. -/
def hwOn (bs : List Nat) : HwCall (List Char) :=
  communicate "la on" bs

/-- Model of `TopticaLaser.off` (lines 318-324): `_communicate('la off')`. -/
def hwOff (bs : List Nat) : HwCall (List Char) :=
  communicate "la off" bs

/-- Model of `TopticaLaser.set_laser_state` (lines 295-308): writes the bare bytes
`b'la on'` or `b'la off'` (with no terminator) depending on the requested
state, then returns `self.get_laser_state()`, which issues the `sta la`
query. -/
def hwSetLaserState (status : LaserState) (bs : List Nat) : HwCall LaserState :=
  { writes :=
      (if status = LaserState.ON then ["la on"]
       else if status = LaserState.OFF then ["la off"]
       else []) ++ (hwGetLaserState bs).writes,
    result := (hwGetLaserState bs).result }

/-- Decimal digits of the fractional part `0 ≤ q < 1` of a float, as produced
by `str`: repeatedly multiply by ten and emit the integer digit, with fuel. -/
def fracDigits : Nat → ℚ → List Char
  | 0, _ => []
  | fuel + 1, q =>
    if q = 0 then []
    else
      let q10 := q * 10
      let d := Rat.floor q10
      Char.ofNat (48 + d.toNat) :: fracDigits fuel (q10 - (d : ℚ))

/-- Python `str` on a nonnegative float with an exact short decimal expansion
(the only case arising in the modelled commands): integer part, a dot, and at
least one fractional digit. -/
def pyFloatStrNN (q : ℚ) : String :=
  let ip := (Rat.floor q).toNat
  let fr := q - (ip : ℚ)
  String.mk ((toString ip).data ++ '.' :: (if fr = 0 then ['0'] else fracDigits 30 fr))

/-- Python `str` on a float with an exact short decimal expansion. -/
def pyFloatStr (q : ℚ) : String :=
  if q < 0 then String.mk ('-' :: (pyFloatStrNN (-q)).data) else pyFloatStrNN q

/-- Model of `TopticaLaser.set_autopulse_per` (lines 395-411): `per = per/1e6`, then
`_communicate('puls period ' + str(per))`. -/
def hwSetAutopulsePer (per : ℚ) (bs : List Nat) : HwCall (List Char) :=
  communicate ("puls period " ++ pyFloatStr (per / 1000000)) bs

/-- Model of `TopticaLaser._checkIfToptica` (lines 612-628): `_communicate('serial')`,
then `'iBEAM' in ret`. -/
def checkIfToptica (bs : List Nat) : HwCall Bool :=
  { writes := (communicate "serial" bs).writes,
    result := do
      let ret ← (communicate "serial" bs).result
      pure (containsSub "iBEAM".data ret) }

/-- Model of `TopticaLaser.connect_laser` (lines 79-99): a failed or not-open port
(`portOpens = false`, covering the caught `SerialException` and the
`is_open` test) returns `False`; otherwise the result of the identity check
decides between `True` and `False`.  A `False` return makes `on_activate`
fail; no exception is raised for a failed identity check. -/
def connectLaser (portOpens : Bool) (bs : List Nat) : Except PyErr Bool :=
  if portOpens then
    do
      let ok ← (checkIfToptica bs).result
      pure ok
  else
    Except.ok false

/-- Model of `TopticaLaserLogic.set_laser_state` (src/logic/Toptica_laser_logic.py
lines 190-197): compares the requested boolean with the cached
`self.laser_state` and calls `self._laser.on()` or `self._laser.off()` (each a
single `_communicate`); returns the transport writes this produces. -/
def logicSetLaserState (cached : LaserState) (state : Bool) : List String :=
  (if state ∧ cached = LaserState.OFF then ["la on\r\n"] else []) ++
  (if ¬ state ∧ cached = LaserState.ON then ["la off\r\n"] else [])

/-! ### Poll loop (src/logic/Toptica_laser_logic.py) -/

/-- The value `self.bufferLength = 100` set in `on_activate`. -/
def bufferLength : Nat := 100

/-- The ring buffers of `self.data`.  `init_data_logging` creates exactly the
keys `current`, `power`, `time` and the two keys of `get_temperatures()`
(`Base Plate` and `Diode`), so the dict is modelled as a fixed record. -/
structure PollData where
  current : List ℚ
  power : List ℚ
  time : List ℚ
  basePlate : List ℚ
  diode : List ℚ
  deriving DecidableEq

/-- The device responses consumed by one poll pass, one byte burst per query
issued by `check_laser_loop`, plus the `time.time()` wall-clock value. -/
structure PassInput where
  staLa : List Nat
  shPow : List Nat
  shTempSys : List Nat
  shTemp : List Nat
  staPuls : List Nat
  staFine : List Nat
  tNow : ℚ
  deriving DecidableEq

/-- The values fetched by the query section of `check_laser_loop`
(lines 124-132). -/
structure Readings where
  state : LaserState
  power : ℚ
  temps : TempDict
  deriving DecidableEq

/-- The fallible query section of `check_laser_loop`: the five getter calls in
source order.  All Python exceptions of the pass arise here (decode or float
parse failures inside the getters); the buffer-update section below it is
exception-free, since the buffers hold floats under the fixed keys written. -/
def passReadings (inp : PassInput) : Except PyErr Readings := do
  let st ← (hwGetLaserState inp.staLa).result
  let pw ← (hwGetPower inp.shPow).result
  let tp ← (hwGetTemperatures inp.shTempSys inp.shTemp).result
  let _ap ← (hwGetAutopulseStatus inp.staPuls).result
  let _fn ← (hwGetFineStatus inp.staFine).result
  pure { state := st, power := pw, temps := tp }

/-- Model of `np.roll(a, -1)`: rotate left by one. -/
def npRoll (l : List ℚ) : List ℚ :=
  l.drop 1 ++ l.take 1

/-- Model of `a[-1] = v` on a nonempty numpy buffer. -/
def pySetLast (l : List ℚ) (v : ℚ) : List ℚ :=
  l.dropLast ++ [v]

/-- The buffer-update section of `check_laser_loop` (lines 134-141): roll every
buffer left by one, then overwrite the last slot of `power` and `time`, and of
each temperature buffer from the freshly read dict. -/
def updateData (d : PollData) (r : Readings) (tNow : ℚ) : PollData :=
  let d1 : PollData :=
    { current := npRoll d.current
      power := npRoll d.power
      time := npRoll d.time
      basePlate := npRoll d.basePlate
      diode := npRoll d.diode }
  { d1 with
      power := pySetLast d1.power r.power
      time := pySetLast d1.time tNow
      basePlate := pySetLast d1.basePlate r.temps.basePlate
      diode := pySetLast d1.diode r.temps.diode }

/-- Outcome of one invocation of `check_laser_loop`: the buffers, the interval
passed to `self.queryTimer.start` (`none` when the stop branch returns without
rearming), and whether the `except` branch ran. -/
structure PassResult where
  data : PollData
  rearm : Option Nat
  raised : Bool
  deriving DecidableEq

/-- Model of `TopticaLaserLogic.check_laser_loop` (lines 113-147): an early return when
`stopRequest` is set; otherwise the query section, the buffer update on
success, and on any exception the unchanged buffers with the fallback interval
`qi = 3000`; the timer is restarted in both cases. -/
def checkLaserLoop (stopRequest : Bool) (queryInterval : Nat) (d : PollData)
    (inp : PassInput) : PassResult :=
  if stopRequest then
    { data := d, rearm := none, raised := false }
  else
    match passReadings inp with
    | Except.ok r =>
      { data := updateData d r inp.tNow, rearm := some queryInterval, raised := false }
    | Except.error _ =>
      { data := d, rearm := some 3000, raised := true }

/-- Iterated poll passes with `stopRequest` left unset. -/
def runPasses (queryInterval : Nat) (d : PollData) (inps : List PassInput) : PollData :=
  inps.foldl (fun dd i => (checkLaserLoop false queryInterval dd i).data) d

/-- The power sample a successful pass writes (value of
`self._laser.get_power()` for that pass). -/
def powerOf (inp : PassInput) : ℚ :=
  match passReadings inp with
  | Except.ok r => r.power
  | Except.error _ => 0

/-- The base-plate temperature sample a successful pass writes. -/
def basePlateOf (inp : PassInput) : ℚ :=
  match passReadings inp with
  | Except.ok r => r.temps.basePlate
  | Except.error _ => 0

/-- The diode temperature sample a successful pass writes. -/
def diodeOf (inp : PassInput) : ℚ :=
  match passReadings inp with
  | Except.ok r => r.temps.diode
  | Except.error _ => 0

/-- Whether a string ends with the CRLF terminator. -/
def endsWithCRLF (s : String) : Bool :=
  s.data.reverse.take 2 = ['\n', '\r']

/-- Concrete buffers for evaluating the model: every buffer zeroed at the
source length, as `init_data_logging` produces at time zero. -/
def c5data : PollData :=
  { current := List.replicate bufferLength 0
    power := List.replicate bufferLength 0
    time := List.replicate bufferLength 0
    basePlate := List.replicate bufferLength 0
    diode := List.replicate bufferLength 0 }

/-- A concrete device-response set on which a poll pass succeeds. -/
def c5inp : PassInput :=
  { staLa := asciiBytes "ONxxxxx"
    shPow := asciiBytes "a = 5 XYZWV"
    shTempSys := asciiBytes "a = 5 XYZWV"
    shTemp := asciiBytes "a = 5 XYZWV"
    staPuls := []
    staFine := []
    tNow := 0 }

end Toptica

namespace Toptica

/-! ### Shared helper lemmas -/

/-- Strict UTF-8 decoding of a pure ASCII byte list succeeds and is the
identity on code points. -/
theorem utf8Decode_ascii : ∀ bs : List Nat, (∀ b ∈ bs, b < 128) → utf8Decode bs = some bs := by
  intro bs
  induction bs with
  | nil => intro _; rfl
  | cons b rest ih =>
    intro h
    have hb : b < 128 := h b (by simp)
    have hrest : ∀ x ∈ rest, x < 128 := fun x hx => h x (by simp [hx])
    have ihr : utf8DecodeF rest.length rest = some rest := ih hrest
    show utf8DecodeF (rest.length + 1) (b :: rest) = some (b :: rest)
    rw [utf8DecodeF]
    rw [if_pos hb, ihr]
    rfl

/-- One ring-buffer step of the poll pass on a nonempty buffer: shift left by
one and write the sample at the last slot. -/
theorem pySetLast_npRoll (b : List ℚ) (hb : b ≠ []) (s : ℚ) :
    pySetLast (npRoll b) s = b.drop 1 ++ [s] := by
  cases b with
  | nil => exact absurd rfl hb
  | cons x xs => simp [npRoll, pySetLast]

/-- Iterating the ring-buffer step keeps exactly a sliding window over the
initial contents followed by the pushed samples. -/
theorem foldl_shift (ss : List ℚ) :
    ∀ b : List ℚ, b ≠ [] →
      List.foldl (fun acc s => pySetLast (npRoll acc) s) b ss = (b ++ ss).drop ss.length := by
  induction ss with
  | nil => intro b _; simp
  | cons s ss ih =>
    intro b hb
    rw [List.foldl_cons, pySetLast_npRoll b hb s, ih (b.drop 1 ++ [s]) (by simp)]
    cases b with
    | nil => exact absurd rfl hb
    | cons x xs => simp

/-- Dropping at least the length of the first summand of an append. -/
theorem drop_append_ge (b ss : List ℚ) (n : Nat) (h : b.length ≤ n) :
    (b ++ ss).drop n = ss.drop (n - b.length) := by
  induction b generalizing n with
  | nil => simp
  | cons x xs ih =>
    cases n with
    | zero => simp at h
    | succ m =>
      have h2 : xs.length ≤ m := by simp at h; omega
      show (xs ++ ss).drop m = ss.drop (m + 1 - (xs.length + 1))
      rw [show m + 1 - (xs.length + 1) = m - xs.length by omega]
      exact ih m h2

/-- Projections of one successful poll pass over the iterated loop: each data
buffer evolves by the ring-buffer step with that pass's sample. -/
theorem runPasses_proj (qi : Nat) :
    ∀ (inps : List PassInput) (d : PollData), (∀ i ∈ inps, (passReadings i).isOk = true) →
      (runPasses qi d inps).power =
        List.foldl (fun acc s => pySetLast (npRoll acc) s) d.power (inps.map powerOf) ∧
      (runPasses qi d inps).time =
        List.foldl (fun acc s => pySetLast (npRoll acc) s) d.time (inps.map (fun i => i.tNow)) ∧
      (runPasses qi d inps).basePlate =
        List.foldl (fun acc s => pySetLast (npRoll acc) s) d.basePlate (inps.map basePlateOf) ∧
      (runPasses qi d inps).diode =
        List.foldl (fun acc s => pySetLast (npRoll acc) s) d.diode (inps.map diodeOf) := by
  intro inps
  induction inps with
  | nil => intro d _; exact ⟨rfl, rfl, rfl, rfl⟩
  | cons i rest ih =>
    intro d h
    have hi : (passReadings i).isOk = true := h i (by simp)
    obtain ⟨r, hr⟩ : ∃ r, passReadings i = Except.ok r := by
      cases hst : passReadings i with
      | error e => rw [hst] at hi; exact absurd hi (by simp [Except.isOk, Except.toBool])
      | ok r => exact ⟨r, rfl⟩
    have hrest : ∀ j ∈ rest, (passReadings j).isOk = true := fun j hj => h j (by simp [hj])
    have hstep : (checkLaserLoop false qi d i).data = updateData d r i.tNow := by
      simp [checkLaserLoop, hr]
    have hrun : runPasses qi d (i :: rest) = runPasses qi (updateData d r i.tNow) rest := by
      simp [runPasses, List.foldl_cons, hstep]
    obtain ⟨hp, ht, hb, hd⟩ := ih (updateData d r i.tNow) hrest
    have hpw : powerOf i = r.power := by simp [powerOf, hr]
    have hbp : basePlateOf i = r.temps.basePlate := by simp [basePlateOf, hr]
    have hdi : diodeOf i = r.temps.diode := by simp [diodeOf, hr]
    refine ⟨?_, ?_, ?_, ?_⟩
    · rw [hrun, hp, List.map_cons, List.foldl_cons, hpw]; rfl
    · rw [hrun, ht, List.map_cons, List.foldl_cons]; rfl
    · rw [hrun, hb, List.map_cons, List.foldl_cons, hbp]; rfl
    · rw [hrun, hd, List.map_cons, List.foldl_cons, hdi]; rfl

/-! ### Claim theorems -/

/-- Claim C1 (code-bug evaluation): on `TEMP = 23.5`, whose value token runs to
the end of the string, `_getValue` returns `23.` — `find` yields `-1` for the
missing next space and the Python slice `terminalString[start_num+2:-1]` then
drops the final character, so the trailing token is truncated, not captured in
full as the claim requires. -/
theorem claim1_getValue_truncates_trailing_token :
    getValue "TEMP = 23.5".data = GotValue.str "23.".data ∧
    GotValue.str "23.".data ≠ GotValue.str "23.5".data := by
  exact ⟨by decide, by decide⟩

/-- Claim C2: a poll pass (with `stopRequest` unset) in which any exception is
raised leaves every ring buffer exactly as it was and rearms the timer with
the 3000 ms fallback interval. -/
theorem claim2_failed_pass_preserves_buffers (queryInterval : Nat) (d : PollData)
    (inp : PassInput)
    (h : (checkLaserLoop false queryInterval d inp).raised = true) :
    (checkLaserLoop false queryInterval d inp).data = d ∧
    (checkLaserLoop false queryInterval d inp).rearm = some 3000 := by
  unfold checkLaserLoop at h ⊢
  cases hp : passReadings inp with
  | error e => simp [hp]
  | ok r => rw [hp] at h; simp at h

/-- Claim C2 witness: a concrete failing pass (undecodable `sta la` response). -/
theorem claim2_failed_pass_preserves_buffers_witness :
    (checkLaserLoop false 100 ⟨[], [], [], [], []⟩
        { staLa := [255], shPow := [], shTempSys := [], shTemp := [],
          staPuls := [], staFine := [], tNow := 0 }).raised = true ∧
    ((checkLaserLoop false 100 ⟨[], [], [], [], []⟩
        { staLa := [255], shPow := [], shTempSys := [], shTemp := [],
          staPuls := [], staFine := [], tNow := 0 }).data = ⟨[], [], [], [], []⟩ ∧
     (checkLaserLoop false 100 ⟨[], [], [], [], []⟩
        { staLa := [255], shPow := [], shTempSys := [], shTemp := [],
          staPuls := [], staFine := [], tNow := 0 }).rearm = some 3000) :=
  ⟨by decide, claim2_failed_pass_preserves_buffers 100 _ _ (by decide)⟩

/-- Claim C3 counterexample: with the device already reporting ON, the
hardware `set_laser_state(ON)` still writes two commands (not zero), and the
logic-layer `set_laser_state(True)` from cached state OFF (which calls `on()`)
emits no `sta la` status query at all — both halves of the claim fail on
the code as written. -/
theorem claim3_counterexample :
    (hwGetLaserState (asciiBytes "ONxxxxx")).result = Except.ok LaserState.ON ∧
    (hwSetLaserState LaserState.ON (asciiBytes "ONxxxxx")).writes = ["la on", "sta la\r\n"] ∧
    (hwSetLaserState LaserState.ON (asciiBytes "ONxxxxx")).writes ≠ [] ∧
    (logicSetLaserState LaserState.OFF true).all
      (fun s => ! containsSub "sta la".data s.data) = true := by
  exact ⟨by decide, by decide, by decide, by decide⟩

/-- Claim C3 (amended): the hardware `set_laser_state(ON)` always writes the
unterminated `la on` followed by exactly one `sta la` query and returns the
re-queried state, regardless of the current state; the already-ON guard lives
in the logic layer, whose `set_laser_state(True)` calls `on()` — one `la on`
command and no status query — when the cached state is OFF, and writes
nothing when the cached state is already ON. -/
theorem claim3_amended (bs : List Nat) :
    (hwSetLaserState LaserState.ON bs).writes = ["la on", "sta la\r\n"] ∧
    (hwSetLaserState LaserState.ON bs).result = (hwGetLaserState bs).result ∧
    logicSetLaserState LaserState.OFF true = ["la on\r\n"] ∧
    logicSetLaserState LaserState.ON true = [] := by
  exact ⟨rfl, rfl, rfl, rfl⟩

/-- Claim C4 counterexample: on the malformed byte sequence `[0xFF]`,
`_get_terminal_string` raises `UnicodeDecodeError` (strict `str(b, 'utf-8')`),
rather than returning any sentinel. -/
theorem claim4_counterexample :
    getTerminalString [255] = Except.error PyErr.unicodeDecodeError := by decide

/-- Claim C4 (amended): decoding in `_get_terminal_string` is strict — on
well-formed input (here: any ASCII byte burst, which is all the device sends)
it returns the decoded characters with the 5-character suffix slice applied
and raises nothing, but on malformed input it raises `UnicodeDecodeError`
propagated to the caller; no sentinel is returned in place of the error. -/
theorem claim4_amended (bs : List Nat) (h : ∀ b ∈ bs, b < 128) :
    getTerminalString bs =
      Except.ok (pySlice (bs.map Char.ofNat) 0 ((bs.length : Int) - 5)) := by
  unfold getTerminalString pyDecodeUtf8
  rw [utf8Decode_ascii bs h]
  simp [Except.bind]

/-- Claim C4 witness: a concrete ASCII burst decodes without error. -/
theorem claim4_amended_witness :
    (∀ b ∈ asciiBytes "iBEAM123", b < 128) ∧
    getTerminalString (asciiBytes "iBEAM123") =
      Except.ok (pySlice ((asciiBytes "iBEAM123").map Char.ofNat) 0
        (((asciiBytes "iBEAM123").length : Int) - 5)) :=
  ⟨by decide, claim4_amended (asciiBytes "iBEAM123") (by decide)⟩

/-- Claim C5: after `N ≥ bufferLength` consecutive successful poll passes,
each written ring buffer (`power`, `time` and the two temperature buffers)
holds exactly the last `bufferLength` samples produced for that quantity,
oldest first — each pass shifts left by one slot, evicting the oldest sample,
and writes the new sample at the last slot. -/
theorem claim5_ring_buffer_window (qi : Nat) (d : PollData) (inps : List PassInput)
    (hok : ∀ i ∈ inps, (passReadings i).isOk = true)
    (hN : bufferLength ≤ inps.length)
    (hp : d.power.length = bufferLength) (ht : d.time.length = bufferLength)
    (hb : d.basePlate.length = bufferLength) (hd : d.diode.length = bufferLength) :
    (runPasses qi d inps).power = (inps.map powerOf).drop (inps.length - bufferLength) ∧
    (runPasses qi d inps).time =
      (inps.map (fun i => i.tNow)).drop (inps.length - bufferLength) ∧
    (runPasses qi d inps).basePlate =
      (inps.map basePlateOf).drop (inps.length - bufferLength) ∧
    (runPasses qi d inps).diode = (inps.map diodeOf).drop (inps.length - bufferLength) := by
  obtain ⟨h1, h2, h3, h4⟩ := runPasses_proj qi inps d hok
  have hpos : (0 : Nat) < bufferLength := by decide
  have hne : ∀ l : List ℚ, l.length = bufferLength → l ≠ [] := by
    intro l hl hcontra
    rw [hcontra] at hl
    simp [bufferLength] at hl
  rw [h1, h2, h3, h4, foldl_shift _ _ (hne _ hp), foldl_shift _ _ (hne _ ht),
    foldl_shift _ _ (hne _ hb), foldl_shift _ _ (hne _ hd)]
  rw [drop_append_ge _ _ _ (by simp [hp]; omega), drop_append_ge _ _ _ (by simp [ht]; omega),
    drop_append_ge _ _ _ (by simp [hb]; omega), drop_append_ge _ _ _ (by simp [hd]; omega)]
  simp [hp, ht, hb, hd]

/-- Claim C5 witness: one hundred concrete successful passes over zeroed
buffers of the source length. -/
theorem claim5_ring_buffer_window_witness :
    (∀ i ∈ List.replicate 100 c5inp, (passReadings i).isOk = true) ∧
    bufferLength ≤ (List.replicate 100 c5inp).length ∧
    c5data.power.length = bufferLength ∧
    c5data.time.length = bufferLength ∧
    c5data.basePlate.length = bufferLength ∧
    c5data.diode.length = bufferLength ∧
    ((runPasses 100 c5data (List.replicate 100 c5inp)).power =
        ((List.replicate 100 c5inp).map powerOf).drop
          ((List.replicate 100 c5inp).length - bufferLength) ∧
      (runPasses 100 c5data (List.replicate 100 c5inp)).time =
        ((List.replicate 100 c5inp).map (fun i => i.tNow)).drop
          ((List.replicate 100 c5inp).length - bufferLength) ∧
      (runPasses 100 c5data (List.replicate 100 c5inp)).basePlate =
        ((List.replicate 100 c5inp).map basePlateOf).drop
          ((List.replicate 100 c5inp).length - bufferLength) ∧
      (runPasses 100 c5data (List.replicate 100 c5inp)).diode =
        ((List.replicate 100 c5inp).map diodeOf).drop
          ((List.replicate 100 c5inp).length - bufferLength)) := by
  have hok : ∀ i ∈ List.replicate 100 c5inp, (passReadings i).isOk = true := by
    intro i hi
    rw [List.eq_of_mem_replicate hi]
    with_unfolding_all decide
  refine ⟨hok, by decide, by decide, by decide, by decide, by decide, ?_⟩
  exact claim5_ring_buffer_window 100 c5data (List.replicate 100 c5inp) hok
    (by decide) (by decide) (by decide) (by decide) (by decide)

/-- Claim C6: `set_autopulse_per(500000)` divides the microsecond input by 1e6
and transmits exactly `puls period 0.5` with the CRLF terminator; in general
the transmitted numeric argument is the input divided by 1e6. -/
theorem claim6_autopulse_period (bs : List Nat) :
    (hwSetAutopulsePer 500000 bs).writes = ["puls period 0.5\r\n"] ∧
    ∀ per : ℚ, (hwSetAutopulsePer per bs).writes =
      ["puls period " ++ pyFloatStr (per / 1000000) ++ "\r\n"] := by
  refine ⟨?_, fun per => rfl⟩
  show ["puls period " ++ pyFloatStr ((500000 : ℚ) / 1000000) ++ "\r\n"] = _
  rw [show pyFloatStr ((500000 : ℚ) / 1000000) = "0.5" by with_unfolding_all decide]
  decide

/-- Claim C7: at connect time with an open port, `connect_laser` succeeds
exactly when the serial-number response contains the substring `iBEAM`, and is
rejected (a `False` return, failing activation) for every response without
it. -/
theorem claim7_identity_check (bs : List Nat) (s : List Char)
    (h : getTerminalString bs = Except.ok s) :
    connectLaser true bs = Except.ok (containsSub "iBEAM".data s) ∧
    (containsSub "iBEAM".data s = true → connectLaser true bs = Except.ok true) ∧
    (containsSub "iBEAM".data s = false → connectLaser true bs = Except.ok false) ∧
    connectLaser false bs = Except.ok false := by
  have h1 : connectLaser true bs = Except.ok (containsSub "iBEAM".data s) := by
    simp [connectLaser, checkIfToptica, communicate, h, Except.bind]
  refine ⟨h1, fun hc => by rw [h1, hc], fun hc => by rw [h1, hc], rfl⟩

/-- Claim C7 witness: a concrete accepting response. -/
theorem claim7_identity_check_witness :
    getTerminalString (asciiBytes "iBEAM smart") = Except.ok "iBEAM ".data ∧
    connectLaser true (asciiBytes "iBEAM smart") =
      Except.ok (containsSub "iBEAM".data "iBEAM ".data) :=
  ⟨by decide, (claim7_identity_check (asciiBytes "iBEAM smart") "iBEAM ".data (by decide)).1⟩

/-- Claim C8 (code-bug evaluation): every command sent through `_communicate`
is CRLF-terminated, but the hardware `set_laser_state` writes the bare bytes
`la on` as its first transport write, which does not end with the required
terminator — the one outbound command violating the claimed invariant. -/
theorem claim8_crlf_invariant (msg : String) (bs : List Nat) :
    (hwSetLaserState LaserState.ON bs).writes.head? = some "la on" ∧
    endsWithCRLF "la on" = false ∧
    (communicate msg bs).writes.all endsWithCRLF = true := by
  refine ⟨rfl, by decide, ?_⟩
  have hd : ("\r\n" : String).data = ['\r', '\n'] := rfl
  simp [communicate, endsWithCRLF, String.data_append, hd, List.reverse_append]

/-- Claim C9: `get_power` and `get_power_setpoint` both transmit `sh pow`; on
any identical response whose parsed value is `v`, `get_power` returns
`v / 1000` and `get_power_setpoint` returns `v * 1000`, so the two results
always differ by the factor 1e6. -/
theorem claim9_power_setpoint_relation (bs : List Nat) (s : List Char) (v : ℚ)
    (h1 : getTerminalString bs = Except.ok s)
    (h2 : pyFloat (getValue s) = Except.ok v) :
    (hwGetPower bs).writes = ["sh pow\r\n"] ∧
    (hwGetPowerSetpoint bs).writes = ["sh pow\r\n"] ∧
    (hwGetPower bs).result = Except.ok (v / 1000) ∧
    (hwGetPowerSetpoint bs).result = Except.ok (v * 1000) ∧
    v * 1000 = 1000000 * (v / 1000) := by
  refine ⟨rfl, rfl, ?_, ?_, by ring⟩
  · simp [hwGetPower, communicate, h1, h2, Except.bind, Bind.bind, Functor.map, Except.map,
      Pure.pure, Except.pure]
  · simp [hwGetPowerSetpoint, h1, h2, Except.bind, Bind.bind, Functor.map, Except.map,
      Pure.pure, Except.pure]

/-- Claim C9 witness: a concrete response parsing to 5. -/
theorem claim9_power_setpoint_relation_witness :
    getTerminalString (asciiBytes "a = 5 XYZWV") = Except.ok "a = 5 ".data ∧
    pyFloat (getValue "a = 5 ".data) = Except.ok 5 ∧
    ((hwGetPower (asciiBytes "a = 5 XYZWV")).writes = ["sh pow\r\n"] ∧
      (hwGetPowerSetpoint (asciiBytes "a = 5 XYZWV")).writes = ["sh pow\r\n"] ∧
      (hwGetPower (asciiBytes "a = 5 XYZWV")).result = Except.ok ((5 : ℚ) / 1000) ∧
      (hwGetPowerSetpoint (asciiBytes "a = 5 XYZWV")).result = Except.ok ((5 : ℚ) * 1000) ∧
      (5 : ℚ) * 1000 = 1000000 * ((5 : ℚ) / 1000)) :=
  ⟨by decide, by with_unfolding_all decide,
    claim9_power_setpoint_relation (asciiBytes "a = 5 XYZWV") "a = 5 ".data 5 (by decide)
      (by with_unfolding_all decide)⟩

/-- Claim C10: on every response without `=`, `_getValue` yields the sentinel
`404`, so `get_power` returns `404 / 1000 = 0.404` — the same value a genuine
`0.404 mW` reading (device response value `404`) produces, hence
indistinguishable from a real power sample. -/
theorem claim10_sentinel_power (bs : List Nat) (s : List Char)
    (h1 : getTerminalString bs = Except.ok s)
    (h2 : pyContains s '=' = false) :
    (hwGetPower bs).result = Except.ok ((404 : ℚ) / 1000) ∧
    (hwGetPower (asciiBytes "a = 404 XYZWV")).result = Except.ok ((404 : ℚ) / 1000) := by
  constructor
  · simp [hwGetPower, communicate, h1, getValue, h2, pyFloat, Except.bind, Bind.bind,
      Functor.map, Except.map, Pure.pure, Except.pure]
  · with_unfolding_all decide

/-- Claim C10 witness: a concrete `=`-free response. -/
theorem claim10_sentinel_power_witness :
    getTerminalString (asciiBytes "STATUSabcde") = Except.ok "STATUS".data ∧
    pyContains "STATUS".data '=' = false ∧
    ((hwGetPower (asciiBytes "STATUSabcde")).result = Except.ok ((404 : ℚ) / 1000) ∧
      (hwGetPower (asciiBytes "a = 404 XYZWV")).result = Except.ok ((404 : ℚ) / 1000)) :=
  ⟨by decide, by decide,
    claim10_sentinel_power (asciiBytes "STATUSabcde") "STATUS".data (by decide) (by decide)⟩

end Toptica
